import Mathlib

/-!
Shallow embedding of the KV request/response layer of `etcd-client`
(`src/etcd-client/src/kv/range.rs` and `src/etcd-client/src/kv/delete.rs`),
together with theorems settling the specification claims about it.

Modelling conventions:
- byte sequences (`Vec<u8>`) are `List Nat`;
- wire integers (`i64`, `u64`, `i32`) are `Int`/`Nat`; `usize` values are
  `Nat` (bounded by `2 ^ 64` where it matters);
- a Rust panic (`Option::unwrap` on `None`, or `clippy_utilities::Cast`
  failing a checked narrowing) is modelled as `none` of an `Option` result;
- methods taking `&mut self` are modelled by explicit state passing: the
  function returns the method result paired with the updated receiver.
-/

/-- Byte sequences as they travel on the wire (`Vec<u8>` in the source). -/
abbrev Bytes := List Nat

/-- Wire-level `ResponseHeader` message (`proto::etcdserverpb`): cluster id,
member id, store revision after the operation, raft term. -/
structure PbResponseHeader where
  cluster_id : Nat
  member_id : Nat
  revision : Int
  raft_term : Nat
deriving Repr, DecidableEq

/-- Wire-level `KeyValue` message: one stored entry. -/
structure PbKeyValue where
  key : Bytes
  value : Bytes
  create_revision : Int
  mod_revision : Int
  version : Int
  lease : Int
deriving Repr, DecidableEq

/-- `KeyRange` from the `kv` module: the `(key, range_end)` pair addressing a
single key (empty `range_end`), a half-open range, or all keys. Its two
fields are exactly the ones read by `range.rs` and `delete.rs`. -/
structure KeyRange where
  key : Bytes
  range_end : Bytes
deriving Repr, DecidableEq

/-- Wire-level `RangeRequest` message with the thirteen fields initialised by
`EtcdRangeRequest::new`. -/
structure RangeRequest where
  key : Bytes
  range_end : Bytes
  limit : Int
  revision : Int
  sort_order : Int
  sort_target : Int
  serializable : Bool
  keys_only : Bool
  count_only : Bool
  min_mod_revision : Int
  max_mod_revision : Int
  min_create_revision : Int
  max_create_revision : Int
deriving Repr, DecidableEq

/-- Wire-level `RangeResponse` message. -/
structure RangeResponse where
  header : Option PbResponseHeader
  kvs : List PbKeyValue
  more : Bool
  count : Int
deriving Repr, DecidableEq

/-- Wire-level `DeleteRangeRequest` message; `DeleteRangeRequest::default()`
fills every field with its zero value, and `new` overrides the three shown. -/
structure DeleteRangeRequest where
  key : Bytes
  range_end : Bytes
  prev_kv : Bool
deriving Repr, DecidableEq

/-- Wire-level `DeleteRangeResponse` message. -/
structure DeleteRangeResponse where
  header : Option PbResponseHeader
  deleted : Int
  prev_kvs : List PbKeyValue
deriving Repr, DecidableEq

/-- Crate-level `ResponseHeader`, obtained from the wire header via
`From::from` (a plain wrapper). -/
structure ResponseHeader where
  proto : PbResponseHeader
deriving Repr, DecidableEq

/-- Crate-level `EtcdKeyValue`, obtained from a wire `KeyValue` via
`From::from` (a plain wrapper). -/
structure EtcdKeyValue where
  proto : PbKeyValue
deriving Repr, DecidableEq

/-- `clippy_utilities::Cast` narrowing a `usize` to the wire `i64` width:
a checked conversion (`try_into`) that panics when the value does not fit.
The panic is modelled as `none`. -/
def castUsizeToI64 (n : Nat) : Option Int :=
  if n < 2 ^ 63 then some (Int.ofNat n) else none

/-- `clippy_utilities::Cast` widening/narrowing a wire `i64` to `usize`:
checked, panicking (modelled as `none`) on negative values or overflow. -/
def castI64ToUsize (i : Int) : Option Nat :=
  if 0 ≤ i then some i.toNat else none

/-- `EtcdRangeRequest` from `range.rs`: a wrapper around the wire message. -/
structure EtcdRangeRequest where
  proto : RangeRequest
deriving Repr, DecidableEq

/-- `EtcdRangeRequest::new`: builds the wire request from a `KeyRange`,
initialising every other field to its documented default. -/
def EtcdRangeRequest.new (key_range : KeyRange) : EtcdRangeRequest :=
  { proto :=
      { key := key_range.key
        range_end := key_range.range_end
        limit := 0
        revision := 0
        sort_order := 0
        sort_target := 0
        serializable := false
        keys_only := false
        count_only := false
        min_mod_revision := 0
        max_mod_revision := 0
        min_create_revision := 0
        max_create_revision := 0 } }

/-- `EtcdRangeRequest::set_limit`: stores `limit.cast()` into the wire
`limit` field. The cast is `clippy_utilities::Cast`, so an argument that does
not fit in `i64` panics (`none`); otherwise the updated request is returned. -/
def EtcdRangeRequest.set_limit (self : EtcdRangeRequest) (limit : Nat) :
    Option EtcdRangeRequest :=
  (castUsizeToI64 limit).map fun l => { self with proto := { self.proto with limit := l } }

/-- `EtcdRangeRequest::get_key_range`: rebuilds the `KeyRange` from the wire
request's `key` and `range_end`. -/
def EtcdRangeRequest.get_key_range (self : EtcdRangeRequest) : KeyRange :=
  { key := self.proto.key, range_end := self.proto.range_end }

/-- `EtcdRangeRequest::is_single_key`: true when the wire `range_end` is
empty. -/
def EtcdRangeRequest.is_single_key (self : EtcdRangeRequest) : Bool :=
  self.proto.range_end.isEmpty

/-- `EtcdRangeResponse` from `range.rs`: a wrapper around the wire message. -/
structure EtcdRangeResponse where
  proto : RangeResponse
deriving Repr, DecidableEq

/-- `From<RangeResponse> for EtcdRangeResponse` (and `EtcdRangeResponse::new`):
wraps the wire message unchanged. -/
def EtcdRangeResponse.fromWire (resp : RangeResponse) : EtcdRangeResponse :=
  { proto := resp }

/-- `EtcdRangeResponse::take_header`: `self.proto.header.take().map(From::from)`
— returns the header (wrapped) if present and leaves `None` in its place.
Modelled as the returned value paired with the updated response. -/
def EtcdRangeResponse.take_header (self : EtcdRangeResponse) :
    Option ResponseHeader × EtcdRangeResponse :=
  (self.proto.header.map fun h => { proto := h },
   { proto := { self.proto with header := none } })

/-- `EtcdRangeResponse::has_more`: the wire `more` flag. -/
def EtcdRangeResponse.has_more (self : EtcdRangeResponse) : Bool :=
  self.proto.more

/-- `EtcdRangeResponse::get_kvs`: clones the wire `kvs` and wraps each entry. -/
def EtcdRangeResponse.get_kvs (self : EtcdRangeResponse) : List EtcdKeyValue :=
  self.proto.kvs.map fun kv => { proto := kv }

/-- `EtcdDeleteRequest` from `delete.rs`: a wrapper around the wire message. -/
structure EtcdDeleteRequest where
  proto : DeleteRangeRequest
deriving Repr, DecidableEq

/-- `EtcdDeleteRequest::new`: builds the wire request from a `KeyRange` with
`prev_kv` false (the remaining fields come from `default()`, already covered
by the three modelled fields). -/
def EtcdDeleteRequest.new (key_range : KeyRange) : EtcdDeleteRequest :=
  { proto :=
      { key := key_range.key
        range_end := key_range.range_end
        prev_kv := false } }

/-- `EtcdDeleteRequest::set_prev_kv`: sets the wire `prev_kv` flag. -/
def EtcdDeleteRequest.set_prev_kv (self : EtcdDeleteRequest) (prev_kv : Bool) :
    EtcdDeleteRequest :=
  { self with proto := { self.proto with prev_kv := prev_kv } }

/-- `EtcdDeleteRequest::get_key`: the wire `key` field. -/
def EtcdDeleteRequest.get_key (self : EtcdDeleteRequest) : Bytes :=
  self.proto.key

/-- `EtcdDeleteRequest::request_prev_kv`: the wire `prev_kv` flag. -/
def EtcdDeleteRequest.request_prev_kv (self : EtcdDeleteRequest) : Bool :=
  self.proto.prev_kv

/-- `EtcdDeleteResponse` from `delete.rs`: a wrapper around the wire message. -/
structure EtcdDeleteResponse where
  proto : DeleteRangeResponse
deriving Repr, DecidableEq

/-- `From<DeleteRangeResponse> for EtcdDeleteResponse`: wraps the wire message
unchanged. -/
def EtcdDeleteResponse.fromWire (resp : DeleteRangeResponse) : EtcdDeleteResponse :=
  { proto := resp }

/-- `EtcdDeleteResponse::take_header`: `self.proto.header.take().map(From::from)`
— returns the header (wrapped) if present and leaves `None` in its place. -/
def EtcdDeleteResponse.take_header (self : EtcdDeleteResponse) :
    Option ResponseHeader × EtcdDeleteResponse :=
  (self.proto.header.map fun h => { proto := h },
   { proto := { self.proto with header := none } })

/-- `EtcdDeleteResponse::count_deleted`: `self.proto.deleted.cast()`. -/
def EtcdDeleteResponse.count_deleted (self : EtcdDeleteResponse) : Option Nat :=
  castI64ToUsize self.proto.deleted

/-- `EtcdDeleteResponse::take_prev_kvs`: despite its name, the body is
`self.proto.prev_kvs.clone().into_iter().map(From::from).collect()` — it reads
a clone and never assigns to `self`, so the receiver is returned unchanged. -/
def EtcdDeleteResponse.take_prev_kvs (self : EtcdDeleteResponse) :
    List EtcdKeyValue × EtcdDeleteResponse :=
  (self.proto.prev_kvs.map fun kv => { proto := kv }, self)

/-- `EtcdDeleteResponse::has_prev_kvs`: true when the wire `prev_kvs` is
non-empty. -/
def EtcdDeleteResponse.has_prev_kvs (self : EtcdDeleteResponse) : Bool :=
  !self.proto.prev_kvs.isEmpty

/-- `EtcdDeleteResponse::get_prev_kvs`: clones the wire `prev_kvs` and wraps
each entry. -/
def EtcdDeleteResponse.get_prev_kvs (self : EtcdDeleteResponse) : List EtcdKeyValue :=
  self.proto.prev_kvs.map fun kv => { proto := kv }

/-- `EtcdDeleteResponse::get_revision`: `self.proto.header.unwrap().revision` —
`unwrap` panics when the header is absent (modelled as `none`); otherwise the
header's `revision` field is returned. -/
def EtcdDeleteResponse.get_revision (self : EtcdDeleteResponse) : Option Int :=
  self.proto.header.map fun h => h.revision

/-- Error kinds named by the specification (section 7). The source files under
`src/` never construct these: they are used here to state spec-worded variants
for comparison, and the spec-modelled `set_revision`. -/
inductive EtcdError where
  | InvalidArgument
  | RevisionCompacted
  | MissingHeader
deriving Repr, DecidableEq

/-- Spec-worded variant of `get_revision`, written from the spec sentence
"fails with `MissingHeader` if no header was present": returns the header's
revision, or the `MissingHeader` error value when the header is absent. Stated
only for comparison with the source's `get_revision`. -/
def getRevisionMissingHeaderSpec (self : EtcdDeleteResponse) : Except EtcdError Int :=
  match self.proto.header with
  | some h => Except.ok h.revision
  | none => Except.error EtcdError.MissingHeader

/-- Spec-worded variant of `set_limit`, written from the spec sentence
"checked-narrowing conversion failing with `InvalidArgument` on overflow":
returns the updated request, or the `InvalidArgument` error value when the
argument does not fit the wire `i64` width. Stated only for comparison with
the source's `set_limit`. -/
def setLimitCheckedSpec (self : EtcdRangeRequest) (limit : Nat) :
    Except EtcdError EtcdRangeRequest :=
  if limit < 2 ^ 63 then
    Except.ok { self with proto := { self.proto with limit := Int.ofNat limit } }
  else
    Except.error EtcdError.InvalidArgument

/-- Modelled from the spec: `EtcdRangeRequest::set_revision` is absent from
the source files under `src/` (only `range.rs` and `delete.rs` are present);
section 4.2 specifies "`r == 0` reads latest; `r < 0` fails with
`InvalidArgument`; `r > 0` requests a historical snapshot", with validation
at request-construction time. -/
def EtcdRangeRequest.set_revision (self : EtcdRangeRequest) (r : Int) :
    Except EtcdError EtcdRangeRequest :=
  if r < 0 then Except.error EtcdError.InvalidArgument
  else Except.ok { self with proto := { self.proto with revision := r } }

/-- Sample wire header used by concrete witnesses. -/
def hdrSample : PbResponseHeader :=
  { cluster_id := 1, member_id := 2, revision := 7, raft_term := 3 }

/-- Sample stored entry used by concrete witnesses. -/
def kvSample : PbKeyValue :=
  { key := [102, 111, 111], value := [98, 97, 114], create_revision := 1,
    mod_revision := 2, version := 1, lease := 0 }

/-- Sample headerless wire delete response. -/
def wireDeleteNoHeader : DeleteRangeResponse :=
  { header := none, deleted := 0, prev_kvs := [] }

/-- Sample wire delete response with a header and one captured entry. -/
def wireDeleteFull : DeleteRangeResponse :=
  { header := some hdrSample, deleted := 1, prev_kvs := [kvSample] }

/-- Sample headerless wire range response. -/
def wireRangeNoHeader : RangeResponse :=
  { header := none, kvs := [], more := false, count := 0 }

/-- Sample single-key `KeyRange` (empty `range_end`). -/
def krSingle : KeyRange := { key := [102, 111, 111], range_end := [] }

/-- Sample `KeyRange` with a non-empty `range_end` (as built for a key

interval such as foo..fop). -/
def krPair : KeyRange := { key := [102, 111, 111], range_end := [102, 111, 112] }

/-- Claim C1 counterexample: on a wire delete response that lacks a header,
`get_revision` panics (the `Option::unwrap` branch, modelled as `none`); it
produces no error value at all, in particular not the `MissingHeader` error
value that the spec-worded variant `getRevisionMissingHeaderSpec` produces at
the same input. So the claim that `get_revision` fails with a `MissingHeader`
error is false. -/
theorem C1_counterexample :
    EtcdDeleteResponse.get_revision (EtcdDeleteResponse.fromWire wireDeleteNoHeader)
      = none ∧
    getRevisionMissingHeaderSpec (EtcdDeleteResponse.fromWire wireDeleteNoHeader)
      = Except.error EtcdError.MissingHeader := by
  constructor <;> rfl

/-- Claim C1 (amended): for every `EtcdDeleteResponse` whose wire message
lacks a header, `get_revision` fails by panicking (modelled as `none`) — it
never silently returns a default revision such as 0 and never returns a
`MissingHeader` error value; for every response that has a header,
`get_revision` returns that header's `revision` field. -/
theorem C1_amended (resp : EtcdDeleteResponse) :
    (resp.proto.header = none → resp.get_revision = none) ∧
    ∀ h : PbResponseHeader, resp.proto.header = some h →
      resp.get_revision = some h.revision := by
  constructor
  · intro hn
    simp [EtcdDeleteResponse.get_revision, hn]
  · intro h hs
    simp [EtcdDeleteResponse.get_revision, hs]

/-- Claim C1 amended witness: the panic branch at the concrete headerless
response and the success branch at the concrete response holding revision 7. -/
theorem C1_amended_witness :
    EtcdDeleteResponse.get_revision (EtcdDeleteResponse.fromWire wireDeleteNoHeader)
      = none ∧
    EtcdDeleteResponse.get_revision (EtcdDeleteResponse.fromWire wireDeleteFull)
      = some 7 :=
  ⟨(C1_amended (EtcdDeleteResponse.fromWire wireDeleteNoHeader)).1 rfl,
   (C1_amended (EtcdDeleteResponse.fromWire wireDeleteFull)).2 hdrSample rfl⟩

/-- Claim C2 counterexample: a freshly built `EtcdDeleteRequest` (prev_kv
never set to true) reports `request_prev_kv = false`, yet a wire delete
response carrying one unexpected `prev_kvs` entry decodes to a response on
which both `get_prev_kvs` and `take_prev_kvs` surface that entry — the wire
entries are not discarded, so the claim is false. -/
theorem C2_counterexample :
    (EtcdDeleteRequest.new krSingle).request_prev_kv = false ∧
    EtcdDeleteResponse.get_prev_kvs (EtcdDeleteResponse.fromWire wireDeleteFull)
      ≠ [] ∧
    (EtcdDeleteResponse.take_prev_kvs (EtcdDeleteResponse.fromWire wireDeleteFull)).1
      ≠ [] := by
  refine ⟨rfl, ?_, ?_⟩ <;> decide

/-- Claim C2 (amended): decoding is independent of the request —
`get_prev_kvs` and `take_prev_kvs` return exactly the wire message's
`prev_kvs` entries (each wrapped into `EtcdKeyValue`), whether or not
`prev_kv` was requested; in particular unexpected wire entries are surfaced,
never discarded. -/
theorem C2_amended (w : DeleteRangeResponse) (hw : w.prev_kvs ≠ []) :
    EtcdDeleteResponse.get_prev_kvs (EtcdDeleteResponse.fromWire w)
      = w.prev_kvs.map (fun kv => { proto := kv }) ∧
    (EtcdDeleteResponse.take_prev_kvs (EtcdDeleteResponse.fromWire w)).1
      = w.prev_kvs.map (fun kv => { proto := kv }) ∧
    EtcdDeleteResponse.get_prev_kvs (EtcdDeleteResponse.fromWire w) ≠ [] := by
  refine ⟨rfl, rfl, ?_⟩
  simpa [EtcdDeleteResponse.get_prev_kvs, EtcdDeleteResponse.fromWire] using hw

/-- Claim C2 amended witness: the concrete wire response with one captured
entry decodes to that one (wrapped) entry. -/
theorem C2_amended_witness :
    EtcdDeleteResponse.get_prev_kvs (EtcdDeleteResponse.fromWire wireDeleteFull)
      = wireDeleteFull.prev_kvs.map (fun kv => { proto := kv }) ∧
    EtcdDeleteResponse.get_prev_kvs (EtcdDeleteResponse.fromWire wireDeleteFull)
      ≠ [] :=
  ⟨(C2_amended wireDeleteFull (by decide)).1,
   (C2_amended wireDeleteFull (by decide)).2.2⟩

/-- Claim C3 counterexample: at `n = 2 ^ 63` (a valid `usize` that does not
fit in `i64`), `set_limit` panics (modelled as `none`): it neither clamps nor
fails with the `InvalidArgument` error value that the spec-worded variant
`setLimitCheckedSpec` produces at the same input, so the claimed
clamping-or-InvalidArgument behaviour is false. -/
theorem C3_counterexample :
    EtcdRangeRequest.set_limit (EtcdRangeRequest.new krSingle) (2 ^ 63) = none ∧
    setLimitCheckedSpec (EtcdRangeRequest.new krSingle) (2 ^ 63)
      = Except.error EtcdError.InvalidArgument := by
  constructor <;> rfl

/-- Claim C3 (amended): `set_limit n` narrows `n` to the wire `i64` width by
a checked conversion that never silently truncates: when `n` fits
(`n < 2 ^ 63`) the wire `limit` becomes exactly `n`, and when it does not fit
the call panics (modelled as `none`) rather than truncating, clamping, or
returning an `InvalidArgument` error; `set_limit 0` always sets the wire
`limit` to 0 (unbounded), whatever the previously set value. -/
theorem C3_amended (req : EtcdRangeRequest) (n : Nat) :
    (n < 2 ^ 63 → req.set_limit n
      = some { req with proto := { req.proto with limit := Int.ofNat n } }) ∧
    (2 ^ 63 ≤ n → req.set_limit n = none) ∧
    req.set_limit 0 = some { req with proto := { req.proto with limit := 0 } } := by
  refine ⟨?_, ?_, ?_⟩
  · intro hn
    unfold EtcdRangeRequest.set_limit castUsizeToI64
    rw [if_pos hn]
    rfl
  · intro hn
    unfold EtcdRangeRequest.set_limit castUsizeToI64
    rw [if_neg (Nat.not_lt.mpr hn)]
    rfl
  · simp [EtcdRangeRequest.set_limit, castUsizeToI64]

/-- Claim C3 amended witness: at the concrete request over `krSingle`,
`set_limit 5` stores 5, `set_limit (2 ^ 63)` panics, and `set_limit 0`
resets the stored limit to 0. -/
theorem C3_amended_witness :
    EtcdRangeRequest.set_limit (EtcdRangeRequest.new krSingle) 5
      = some { EtcdRangeRequest.new krSingle with
          proto := { (EtcdRangeRequest.new krSingle).proto with limit := 5 } } ∧
    EtcdRangeRequest.set_limit (EtcdRangeRequest.new krSingle) (2 ^ 63) = none :=
  ⟨(C3_amended (EtcdRangeRequest.new krSingle) 5).1 (by decide),
   (C3_amended (EtcdRangeRequest.new krSingle) (2 ^ 63)).2.1 (by decide)⟩

/-- Claim C4: round-trip — building an `EtcdRangeRequest` from any `KeyRange`
and reading it back with `get_key_range` reproduces the identical
`(key, range_end)` pair, and `EtcdDeleteRequest::new` carries exactly the
pair into the wire request, with `get_key` returning the key unchanged. -/
theorem C4_round_trip (kr : KeyRange) :
    (EtcdRangeRequest.new kr).get_key_range = kr ∧
    (EtcdDeleteRequest.new kr).proto.key = kr.key ∧
    (EtcdDeleteRequest.new kr).proto.range_end = kr.range_end ∧
    (EtcdDeleteRequest.new kr).get_key = kr.key :=
  ⟨rfl, rfl, rfl, rfl⟩

/-- Claim C5: the spec-modelled `set_revision` accepts `r = 0` (read latest),
fails with `InvalidArgument` for every `r < 0` at request-construction time,
and for `r > 0` stores the requested historical revision in the wire
request. -/
theorem C5_set_revision (req : EtcdRangeRequest) (r : Int) :
    req.set_revision 0
      = Except.ok { req with proto := { req.proto with revision := 0 } } ∧
    (r < 0 → req.set_revision r = Except.error EtcdError.InvalidArgument) ∧
    (0 < r → req.set_revision r
      = Except.ok { req with proto := { req.proto with revision := r } }) := by
  refine ⟨?_, ?_, ?_⟩
  · simp [EtcdRangeRequest.set_revision]
  · intro hr
    simp [EtcdRangeRequest.set_revision, hr]
  · intro hr
    simp [EtcdRangeRequest.set_revision, Int.not_lt.mpr (le_of_lt hr)]

/-- Claim C5 witness: at the concrete request over `krSingle`, revision 0 is
accepted, revision -1 is rejected with `InvalidArgument`, and revision 9 is
stored. -/
theorem C5_set_revision_witness :
    EtcdRangeRequest.set_revision (EtcdRangeRequest.new krSingle) (-1)
      = Except.error EtcdError.InvalidArgument ∧
    EtcdRangeRequest.set_revision (EtcdRangeRequest.new krSingle) 9
      = Except.ok { EtcdRangeRequest.new krSingle with
          proto := { (EtcdRangeRequest.new krSingle).proto with revision := 9 } } :=
  ⟨(C5_set_revision (EtcdRangeRequest.new krSingle) (-1)).2.1 (by decide),
   (C5_set_revision (EtcdRangeRequest.new krSingle) 9).2.2 (by decide)⟩

/-- Claim C6: for every `KeyRange`, `is_single_key` on the request built from
it is true exactly when the range's `range_end` is empty; in particular a
request from a `KeyRange` with non-empty `range_end` reports false. -/
theorem C6_is_single_key (kr : KeyRange) :
    ((EtcdRangeRequest.new kr).is_single_key = true ↔ kr.range_end = []) ∧
    (kr.range_end ≠ [] → (EtcdRangeRequest.new kr).is_single_key = false) := by
  constructor
  · simp [EtcdRangeRequest.is_single_key, EtcdRangeRequest.new, List.isEmpty_iff]
  · intro hne
    cases hr : kr.range_end with
    | nil => exact absurd hr hne
    | cons a l =>
      simp [EtcdRangeRequest.is_single_key, EtcdRangeRequest.new, hr]

/-- Claim C6 witness: the single-key sample range reports true and the
two-ended sample range reports false. -/
theorem C6_is_single_key_witness :
    (EtcdRangeRequest.new krSingle).is_single_key = true ∧
    (EtcdRangeRequest.new krPair).is_single_key = false :=
  ⟨(C6_is_single_key krSingle).1.mpr rfl,
   (C6_is_single_key krPair).2 (by decide)⟩

/-- Claim C7: on both response types, decoding a wire message without a
header succeeds and `take_header` returns `none` rather than failing; and
after any `take_header` call the stored header is consumed, so a second
`take_header` on the resulting response returns `none`. -/
theorem C7_take_header (wr : RangeResponse) (wd : DeleteRangeResponse) :
    (wr.header = none → (EtcdRangeResponse.fromWire wr).take_header.1 = none) ∧
    (EtcdRangeResponse.fromWire wr).take_header.2.take_header.1 = none ∧
    (wd.header = none → (EtcdDeleteResponse.fromWire wd).take_header.1 = none) ∧
    (EtcdDeleteResponse.fromWire wd).take_header.2.take_header.1 = none := by
  refine ⟨?_, rfl, ?_, rfl⟩
  · intro hw
    simp [EtcdRangeResponse.take_header, EtcdRangeResponse.fromWire, hw]
  · intro hw
    simp [EtcdDeleteResponse.take_header, EtcdDeleteResponse.fromWire, hw]

/-- Claim C7 witness: the concrete headerless wire responses yield `none`
on the first `take_header`, and the concrete delete response with a header
yields `none` on the second. -/
theorem C7_take_header_witness :
    (EtcdRangeResponse.fromWire wireRangeNoHeader).take_header.1 = none ∧
    (EtcdDeleteResponse.fromWire wireDeleteNoHeader).take_header.1 = none ∧
    (EtcdDeleteResponse.fromWire wireDeleteFull).take_header.2.take_header.1
      = none :=
  ⟨(C7_take_header wireRangeNoHeader wireDeleteNoHeader).1 rfl,
   (C7_take_header wireRangeNoHeader wireDeleteNoHeader).2.2.1 rfl,
   (C7_take_header wireRangeNoHeader wireDeleteFull).2.2.2⟩

/-- Claim C8: `EtcdRangeRequest::new` copies the `KeyRange` into `key` and
`range_end` and initialises every other wire field to its no-filtering
default: limit 0, revision 0, sort order and target 0, serializable false,
keys_only false, count_only false, and all four revision bounds 0. -/
theorem C8_new_defaults (kr : KeyRange) :
    (EtcdRangeRequest.new kr).proto.key = kr.key ∧
    (EtcdRangeRequest.new kr).proto.range_end = kr.range_end ∧
    (EtcdRangeRequest.new kr).proto.limit = 0 ∧
    (EtcdRangeRequest.new kr).proto.revision = 0 ∧
    (EtcdRangeRequest.new kr).proto.sort_order = 0 ∧
    (EtcdRangeRequest.new kr).proto.sort_target = 0 ∧
    (EtcdRangeRequest.new kr).proto.serializable = false ∧
    (EtcdRangeRequest.new kr).proto.keys_only = false ∧
    (EtcdRangeRequest.new kr).proto.count_only = false ∧
    (EtcdRangeRequest.new kr).proto.min_mod_revision = 0 ∧
    (EtcdRangeRequest.new kr).proto.max_mod_revision = 0 ∧
    (EtcdRangeRequest.new kr).proto.min_create_revision = 0 ∧
    (EtcdRangeRequest.new kr).proto.max_create_revision = 0 :=
  ⟨rfl, rfl, rfl, rfl, rfl, rfl, rfl, rfl, rfl, rfl, rfl, rfl, rfl⟩

/-- Claim C9: a freshly built `EtcdDeleteRequest` has `prev_kv` false, and
`set_prev_kv b` makes `request_prev_kv` return exactly `b` while leaving the
wire `key` and `range_end` untouched. -/
theorem C9_prev_kv_flag (kr : KeyRange) (req : EtcdDeleteRequest) (b : Bool) :
    (EtcdDeleteRequest.new kr).request_prev_kv = false ∧
    (req.set_prev_kv b).request_prev_kv = b ∧
    (req.set_prev_kv b).proto.key = req.proto.key ∧
    (req.set_prev_kv b).proto.range_end = req.proto.range_end :=
  ⟨rfl, rfl, rfl, rfl⟩

/-- Claim C10: `take_prev_kvs` reads a clone of the wire `prev_kvs` and never
mutates the response: the returned response state equals the input, a second
`take_prev_kvs` and a `get_prev_kvs` on it return the same entries as the
first call, and `has_prev_kvs` is unchanged by the call. -/
theorem C10_take_prev_kvs_frame (resp : EtcdDeleteResponse) :
    resp.take_prev_kvs.2 = resp ∧
    resp.take_prev_kvs.2.take_prev_kvs.1 = resp.take_prev_kvs.1 ∧
    EtcdDeleteResponse.get_prev_kvs resp.take_prev_kvs.2 = resp.take_prev_kvs.1 ∧
    resp.take_prev_kvs.2.has_prev_kvs = resp.has_prev_kvs :=
  ⟨rfl, rfl, rfl, rfl⟩
